import Mathlib

/-!
Shallow embedding of the lyrebird runtime core (crates/lyrebird-renderer):
the input aggregation engine (`src/input.rs`) and the application runtime's
window-event handler and surface state (`src/lib.rs`).

Modelling conventions:
* `f32` values are modelled by `F32`: a finite rational or one of the
  non-finite values (NaN, plus or minus infinity).  Rust float `clamp`
  semantics are reproduced explicitly.
* `gilrs` ids, buttons and axes, `winit` key codes and mouse buttons are
  modelled as natural numbers (opaque identifiers).
* Hash sets become `Finset`, hash maps become functions into `Option`.
* Each drained gilrs event carries the connection info that
  `gilrs.gamepad(id)` reports at the moment the event is processed
  (`backend_info`), which is what `refresh_gamepad_info` reads.
* The external effects of the runtime's `window_event` handler (hosted
  callbacks, surface acquisition, presentation, loop exit) are recorded as a
  trace of operations.
-/

namespace Lyrebird

/-- A model of `f32`: a finite rational value or a non-finite value. -/
inductive F32 where
  | finite (q : ℚ)
  | nan
  | posInf
  | negInf
deriving DecidableEq

/-- Rust `f32::clamp(lo, hi)`: below `lo` gives `lo`, above `hi` gives `hi`,
NaN propagates, infinities clamp to the corresponding bound. -/
def F32.clamp (v : F32) (lo hi : ℚ) : F32 :=
  match v with
  | .finite q => .finite (if q < lo then lo else if q > hi then hi else q)
  | .nan => .nan
  | .posInf => .finite hi
  | .negInf => .finite lo

/-- From `input.rs`: connection info of one gamepad. -/
structure GamepadInfo where
  name : String
  is_connected : Bool
deriving DecidableEq

/-- `Default for GamepadInfo` in `input.rs`: empty name, not connected. -/
def GamepadInfo.default : GamepadInfo :=
  { name := "", is_connected := false }

/-- From `input.rs`: per-device gamepad state. -/
structure GamepadState where
  info : GamepadInfo
  buttons_down : Finset ℕ
  button_values : ℕ → Option F32
  axes : ℕ → Option F32

/-- `GamepadState::default()`: default info, empty sets and maps. -/
def GamepadState.default : GamepadState :=
  { info := GamepadInfo.default
    buttons_down := ∅
    button_values := fun _ => none
    axes := fun _ => none }

/-- From `input.rs`, `normalize_axis_value`: finite values are clamped to
[-1, 1], non-finite values become 0.0. -/
def normalize_axis_value (value : F32) : F32 :=
  match value with
  | .finite q => .finite (if q < -1 then -1 else if q > 1 then 1 else q)
  | _ => .finite 0

/-- From `input.rs`: the per-frame gamepad edge sets. -/
structure GamepadFrameDeltas where
  just_pressed : Finset (ℕ × ℕ)
  just_released : Finset (ℕ × ℕ)
deriving DecidableEq

/-- The shape of a gilrs `EventType` as matched in `pump_gilrs_events`:
`other` stands for every event kind hit by the catch-all arm. -/
inductive EventType where
  | Connected
  | Disconnected
  | ButtonPressed (button : ℕ)
  | ButtonReleased (button : ℕ)
  | ButtonChanged (button : ℕ) (value : F32)
  | AxisChanged (axis : ℕ) (value : F32)
  | other
deriving DecidableEq

/-- One drained gilrs event: the device id, the event payload, and the
connection info that `gilrs.gamepad(id)` reports while it is processed. -/
structure GEvent where
  id : ℕ
  event : EventType
  backend_info : GamepadInfo
deriving DecidableEq

/-- From `input.rs`: `ElementState` of a winit key or mouse-button event. -/
inductive ElementState where
  | Pressed
  | Released
deriving DecidableEq

/-- From `input.rs`: the state behind the `InputManager` lock.  The raw
`latest_event` is modelled as an opaque token. -/
structure InputInner where
  latest_event : Option ℕ
  keys_down : Finset ℕ
  mouse_buttons_down : Finset ℕ
  cursor_position : Option (ℚ × ℚ)
  scroll_delta : F32 × F32
  last_key : Option (ℕ × ElementState)
  last_mouse_button : Option (ℕ × ElementState)
  gamepads : ℕ → Option GamepadState
  gamepad_frame : GamepadFrameDeltas

/-- `InputInner::refresh_gamepad_info`: get-or-insert the entry for `id`
and overwrite its name and connection flag from the backend. -/
def refresh_gamepad_info (s : InputInner) (id : ℕ) (backend : GamepadInfo) :
    InputInner :=
  let entry := (s.gamepads id).getD GamepadState.default
  { s with gamepads := fun i =>
      if i = id then some { entry with info := backend } else s.gamepads i }

/-- One iteration of the `while let` drain loop in
`InputInner::pump_gilrs_events`, translated arm by arm. -/
def processGilrsEvent (s : InputInner) (ev : GEvent) : InputInner :=
  let id := ev.id
  match ev.event with
  | .Connected => refresh_gamepad_info s id ev.backend_info
  | .Disconnected => refresh_gamepad_info s id ev.backend_info
  | .ButtonPressed button =>
      let s1 := refresh_gamepad_info s id ev.backend_info
      let st := (s1.gamepads id).getD GamepadState.default
      let st := { st with buttons_down := insert button st.buttons_down }
      let s2 := { s1 with gamepads := fun i =>
        if i = id then some st else s1.gamepads i }
      { s2 with gamepad_frame := { s2.gamepad_frame with
          just_pressed := insert (id, button) s2.gamepad_frame.just_pressed } }
  | .ButtonReleased button =>
      let s1 := refresh_gamepad_info s id ev.backend_info
      let s2 :=
        match s1.gamepads id with
        | some st =>
            { s1 with gamepads := fun i =>
                if i = id then
                  some { st with buttons_down := st.buttons_down.erase button }
                else s1.gamepads i }
        | none => s1
      { s2 with gamepad_frame := { s2.gamepad_frame with
          just_released := insert (id, button) s2.gamepad_frame.just_released } }
  | .ButtonChanged button value =>
      let s1 := refresh_gamepad_info s id ev.backend_info
      let st := (s1.gamepads id).getD GamepadState.default
      let st := { st with button_values := fun b =>
        if b = button then some (value.clamp 0 1) else st.button_values b }
      { s1 with gamepads := fun i =>
          if i = id then some st else s1.gamepads i }
  | .AxisChanged axis value =>
      let s1 := refresh_gamepad_info s id ev.backend_info
      let st := (s1.gamepads id).getD GamepadState.default
      let st := { st with axes := fun a =>
        if a = axis then some (normalize_axis_value value) else st.axes a }
      { s1 with gamepads := fun i =>
          if i = id then some st else s1.gamepads i }
  | .other => s

/-- `InputInner::pump_gilrs_events`: clear both edge sets, then drain the
pending backend events in arrival order. -/
def pump_gilrs_events (s : InputInner) (events : List GEvent) : InputInner :=
  events.foldl processGilrsEvent
    { s with gamepad_frame := { just_pressed := ∅, just_released := ∅ } }

/-- `InputManager::update_gamepads` forwards to `pump_gilrs_events` under
the lock. -/
def update_gamepads (s : InputInner) (events : List GEvent) : InputInner :=
  pump_gilrs_events s events

/-- `InputManager::reset_frame_deltas`: zero the scroll accumulator and
drop both last-transition edges. -/
def reset_frame_deltas (s : InputInner) : InputInner :=
  { s with
    scroll_delta := (.finite 0, .finite 0)
    last_key := none
    last_mouse_button := none }

/-- `InputManager::is_button_pressed`. -/
def is_button_pressed (s : InputInner) (id button : ℕ) : Bool :=
  match s.gamepads id with
  | some g => decide (button ∈ g.buttons_down)
  | none => false

/-- `InputManager::button_value`. -/
def button_value (s : InputInner) (id button : ℕ) : F32 :=
  ((s.gamepads id).bind (fun g => g.button_values button)).getD (.finite 0)

/-- `InputManager::axis_value`. -/
def axis_value (s : InputInner) (id axis : ℕ) : F32 :=
  ((s.gamepads id).bind (fun g => g.axes axis)).getD (.finite 0)

/-- `InputManager::was_button_just_pressed`. -/
def was_button_just_pressed (s : InputInner) (id button : ℕ) : Bool :=
  decide ((id, button) ∈ s.gamepad_frame.just_pressed)

/-- `InputManager::was_button_just_released`. -/
def was_button_just_released (s : InputInner) (id button : ℕ) : Bool :=
  decide ((id, button) ∈ s.gamepad_frame.just_released)

/-- From `lib.rs`, `State`: the surface configuration dimensions and the
`is_surface_configured` flag (other `SurfaceConfiguration` fields are fixed
at negotiation time and never touched by `resize`). -/
structure State where
  width : ℕ
  height : ℕ
  is_surface_configured : Bool
deriving DecidableEq

/-- `State::resize`: when both dimensions are positive, store them,
reconfigure the surface and mark it configured; otherwise do nothing.  The
returned flag records whether `surface.configure` was invoked. -/
def State.resize (s : State) (width height : ℕ) : State × Bool :=
  if width > 0 && height > 0 then
    ({ width := width, height := height, is_surface_configured := true }, true)
  else (s, false)

/-- The shape of a winit `WindowEvent` as far as `window_event` and
`is_input_event` distinguish them. -/
inductive WEvent where
  | closeRequested
  | resized (w h : ℕ)
  | redrawRequested
  | keyboardInput
  | cursorMoved
  | mouseInput
  | mouseWheel
  | modifiersChanged
  | other
deriving DecidableEq

/-- `InputManager::is_input_event`: the five window-event kinds treated as
user input. -/
def is_input_event : WEvent → Bool
  | .keyboardInput => true
  | .cursorMoved => true
  | .mouseInput => true
  | .mouseWheel => true
  | .modifiersChanged => true
  | _ => false

/-- Outcome of `surface.get_current_texture()` in the frame step. -/
inductive AcquireResult where
  | success
  | lost
  | outdated
  | otherError
deriving DecidableEq

/-- Observable operations performed by the `window_event` handler, in
order.  `updateGamepads` and `resetFrameDeltas` are in the vocabulary so
that their (non-)occurrence in a trace can be stated. -/
inductive Op where
  | pollInput
  | exitLoop
  | reconfigureSurface
  | updateGamepads
  | hostedUpdate (dt : ℚ)
  | requestRedraw
  | surfaceAcquire
  | hostedRender
  | present
  | logError
  | resetFrameDeltas
deriving DecidableEq

/-- From `lib.rs`, `App`: the optional `State` (absent until device
negotiation completes) and the `elapsed` duration reused as `dt`,
in seconds. -/
structure AppModel where
  state : Option State
  elapsed : ℚ
deriving DecidableEq

/-- Per-call environment of the redraw arm: the wall-clock instant at its
entry (`Instant::now()`), the instant at which `now.elapsed()` is read
after the render match, the result `get_current_texture()` would return,
and the current `window.inner_size()`. -/
structure FrameEnv where
  startT : ℚ
  finishT : ℚ
  acquire : AcquireResult
  windowW : ℕ
  windowH : ℕ
deriving DecidableEq

/-- `App::window_event` from `lib.rs`, translated arm by arm; returns the
new `App` state and the trace of observable operations. -/
def window_event (app : AppModel) (ev : WEvent) (env : FrameEnv) :
    AppModel × List Op :=
  match app.state with
  | none => (app, [])
  | some st =>
    let pollOps : List Op := if is_input_event ev then [.pollInput] else []
    match ev with
    | .closeRequested => (app, pollOps ++ [.exitLoop])
    | .resized w h =>
        let r := State.resize st w h
        ({ app with state := some r.1 },
          pollOps ++ if r.2 then [.reconfigureSurface] else [])
    | .redrawRequested =>
        let dt := app.elapsed
        let newElapsed := env.finishT - env.startT
        if st.is_surface_configured = false then
          ({ app with elapsed := newElapsed },
            pollOps ++ [.hostedUpdate dt, .requestRedraw])
        else
          match env.acquire with
          | .success =>
              ({ app with elapsed := newElapsed },
                pollOps ++ [.hostedUpdate dt, .requestRedraw, .surfaceAcquire,
                  .hostedRender, .present])
          | .lost =>
              let r := State.resize st env.windowW env.windowH
              ({ app with state := some r.1, elapsed := newElapsed },
                pollOps ++ [.hostedUpdate dt, .requestRedraw, .surfaceAcquire]
                  ++ if r.2 then [.reconfigureSurface] else [])
          | .outdated =>
              let r := State.resize st env.windowW env.windowH
              ({ app with state := some r.1, elapsed := newElapsed },
                pollOps ++ [.hostedUpdate dt, .requestRedraw, .surfaceAcquire]
                  ++ if r.2 then [.reconfigureSurface] else [])
          | .otherError =>
              ({ app with elapsed := newElapsed },
                pollOps ++ [.hostedUpdate dt, .requestRedraw, .surfaceAcquire,
                  .logError])
    | _ => (app, pollOps)

/-! Helper predicates and fixtures used to state the claims. -/

/-- Does this drained event report `ButtonPressed button` on device `id`. -/
def isPressEventFor (id button : ℕ) (ev : GEvent) : Bool :=
  ev.id == id &&
    match ev.event with
    | .ButtonPressed b => b == button
    | _ => false

/-- Does this drained event report `ButtonReleased button` on device `id`. -/
def isReleaseEventFor (id button : ℕ) (ev : GEvent) : Bool :=
  ev.id == id &&
    match ev.event with
    | .ButtonReleased b => b == button
    | _ => false

/-- Number of press events for `(id, button)` in a drained sequence. -/
def pressCount (es : List GEvent) (id button : ℕ) : ℕ :=
  (es.filter (isPressEventFor id button)).length

/-- Number of release events for `(id, button)` in a drained sequence. -/
def releaseCount (es : List GEvent) (id button : ℕ) : ℕ :=
  (es.filter (isReleaseEventFor id button)).length

/-- The last press/release edge for `(id, button)` in a drained sequence:
`some true` when it is a press, `some false` when it is a release, `none`
when the sequence holds no press or release of that button. -/
def lastButtonEdge (id button : ℕ) : List GEvent → Option Bool
  | [] => none
  | ev :: es =>
      match lastButtonEdge id button es with
      | some x => some x
      | none =>
          if isPressEventFor id button ev then some true
          else if isReleaseEventFor id button ev then some false
          else none

/-- An input state with nothing recorded yet and no gamepad entries. -/
def inputFresh : InputInner :=
  { latest_event := none
    keys_down := ∅
    mouse_buttons_down := ∅
    cursor_position := none
    scroll_delta := (.finite 0, .finite 0)
    last_key := none
    last_mouse_button := none
    gamepads := fun _ => none
    gamepad_frame := { just_pressed := ∅, just_released := ∅ } }

/-- A runtime model holding a configured 800x600 surface, `elapsed = 0`. -/
def appConfigured : AppModel :=
  { state := some { width := 800, height := 600, is_surface_configured := true }
    elapsed := 0 }

/-- First frame environment: redraw handling runs from instant 0 to 5. -/
def envFrame1 : FrameEnv :=
  { startT := 0, finishT := 5, acquire := .success, windowW := 800, windowH := 600 }

/-- Second frame environment: redraw handling runs from instant 10 to 12. -/
def envFrame2 : FrameEnv :=
  { startT := 10, finishT := 12, acquire := .success, windowW := 800, windowH := 600 }

/-! ### Claim C3 — degenerate and non-degenerate `State::resize` -/

/-- Claim C3, counterexample: the claim says a degenerate `configure`
leaves the ready flag false for every surface state, but on a state whose
surface is already configured, `resize(0, 5)` is a no-op that leaves the
flag `true`. -/
theorem resize_degenerate_keeps_ready_true :
    ((State.resize { width := 3, height := 3, is_surface_configured := true }
        0 5).1).is_surface_configured = true ∧
    ¬ ((State.resize { width := 3, height := 3, is_surface_configured := true }
        0 5).1).is_surface_configured = false := by
  decide

/-- Claim C3 (amended): a degenerate `resize` is a complete no-op — it
leaves every field, including the ready flag, unchanged and does not
reconfigure the surface (so the flag stays false whenever it was false);
a `resize` with both dimensions positive stores the dimensions,
reconfigures the surface and sets the ready flag. -/
theorem resize_spec (s : State) (w h : ℕ) :
    (w = 0 ∨ h = 0 → State.resize s w h = (s, false)) ∧
    (0 < w → 0 < h → State.resize s w h =
      ({ width := w, height := h, is_surface_configured := true }, true)) := by
  constructor
  · rintro (rfl | rfl) <;> simp [State.resize]
  · intro hw hh
    simp [State.resize, hw, hh]

/-- Claim C3, witness: instantiating `resize_spec` on a fresh 3x3 surface,
a degenerate call leaves it unconfigured and a later positive call
configures it. -/
theorem resize_spec_witness :
    State.resize { width := 3, height := 3, is_surface_configured := false } 0 5 =
      ({ width := 3, height := 3, is_surface_configured := false }, false) ∧
    State.resize { width := 3, height := 3, is_surface_configured := false } 4 6 =
      ({ width := 4, height := 6, is_surface_configured := true }, true) :=
  ⟨(resize_spec _ 0 5).1 (Or.inl rfl),
   (resize_spec _ 4 6).2 (by decide) (by decide)⟩

/-! ### Claim C6 — `reset_frame_deltas` -/

/-- Claim C6: after `reset_frame_deltas`, the accumulated scroll delta is
`(0.0, 0.0)` and the last-key and last-mouse-button edges are absent,
while the held-key set, held-mouse-button set, cursor position and all
gamepad state are unchanged. -/
theorem reset_frame_deltas_spec (s : InputInner) :
    (reset_frame_deltas s).scroll_delta = (.finite 0, .finite 0) ∧
    (reset_frame_deltas s).last_key = none ∧
    (reset_frame_deltas s).last_mouse_button = none ∧
    (reset_frame_deltas s).keys_down = s.keys_down ∧
    (reset_frame_deltas s).mouse_buttons_down = s.mouse_buttons_down ∧
    (reset_frame_deltas s).cursor_position = s.cursor_position ∧
    (reset_frame_deltas s).gamepads = s.gamepads :=
  ⟨rfl, rfl, rfl, rfl, rfl, rfl, rfl⟩

/-! ### Claim C9 — window events before a `State` exists -/

/-- Claim C9: while the runtime holds no `State`, every window event
returns immediately: the runtime state is unchanged, no operation is
performed, and in particular a close request does not exit the loop. -/
theorem pre_init_window_event_is_noop (elapsed : ℚ) (ev : WEvent)
    (env : FrameEnv) :
    window_event { state := none, elapsed := elapsed } ev env =
      ({ state := none, elapsed := elapsed }, []) ∧
    Op.exitLoop ∉ (window_event { state := none, elapsed := elapsed } ev env).2 := by
  refine ⟨rfl, ?_⟩
  simp [window_event]

/-! ### Claims C1 and C2 — the redraw frame step -/

/-- Helper: the window-event handler never performs `update_gamepads` or
`reset_frame_deltas`, whatever the runtime state, event and environment. -/
theorem window_event_no_input_frame_ops (a : AppModel) (e : WEvent)
    (v : FrameEnv) :
    Op.updateGamepads ∉ (window_event a e v).2 ∧
    Op.resetFrameDeltas ∉ (window_event a e v).2 := by
  cases ha : a.state with
  | none => simp [window_event, ha]
  | some st =>
      cases e <;>
        cases hc : st.is_surface_configured <;>
        cases hacq : v.acquire <;>
        simp [window_event, ha, hc, hacq, is_input_event, State.resize]

/-- Claim C1, counterexample: on a configured surface with a successful
acquire, the redraw trace is hosted update, redraw scheduling, surface
acquire, hosted render, present — `update_gamepads` and
`reset_frame_deltas` never occur, so the claimed dispatch order does not
hold. -/
theorem frame_order_counterexample :
    (window_event appConfigured .redrawRequested envFrame1).2 =
      [.hostedUpdate 0, .requestRedraw, .surfaceAcquire, .hostedRender,
        .present] ∧
    Op.updateGamepads ∉ (window_event appConfigured .redrawRequested envFrame1).2 ∧
    Op.resetFrameDeltas ∉ (window_event appConfigured .redrawRequested envFrame1).2 := by
  decide

/-- Claim C1 (amended): per redraw request on a configured surface with a
successful acquire, the handler performs hosted `update`, then schedules
the next redraw, then acquires the surface, then performs hosted `render`,
then presents; `InputManager::update_gamepads` and
`InputManager::reset_frame_deltas` are never invoked by the handler. -/
theorem redraw_dispatch_order (app : AppModel) (st : State) (env : FrameEnv)
    (h1 : app.state = some st) (h2 : st.is_surface_configured = true)
    (h3 : env.acquire = .success) :
    (window_event app .redrawRequested env).2 =
      [.hostedUpdate app.elapsed, .requestRedraw, .surfaceAcquire,
        .hostedRender, .present] ∧
    (∀ (a : AppModel) (e : WEvent) (v : FrameEnv),
      Op.updateGamepads ∉ (window_event a e v).2 ∧
      Op.resetFrameDeltas ∉ (window_event a e v).2) := by
  refine ⟨?_, fun a e v => window_event_no_input_frame_ops a e v⟩
  simp [window_event, h1, h2, h3, is_input_event]

/-- Claim C1, witness: `redraw_dispatch_order` instantiated on a configured
640x480 surface with `elapsed = 2`. -/
theorem redraw_dispatch_order_witness :
    (window_event
        { state := some { width := 640, height := 480, is_surface_configured := true }
          elapsed := 2 }
        .redrawRequested envFrame2).2 =
      [.hostedUpdate 2, .requestRedraw, .surfaceAcquire, .hostedRender,
        .present] :=
  (redraw_dispatch_order
    { state := some { width := 640, height := 480, is_surface_configured := true }
      elapsed := 2 }
    { width := 640, height := 480, is_surface_configured := true }
    envFrame2 rfl rfl rfl).1

/-- Claim C2, counterexample: frame one is handled from instant 0 to 5,
frame two starts at instant 10; the `dt` passed to hosted `update` at
frame two is 5 (the duration frame one's handling took), not the 10
seconds of wall-clock time since frame one began being handled. -/
theorem dt_counterexample :
    (window_event (window_event appConfigured .redrawRequested envFrame1).1
        .redrawRequested envFrame2).2.head? = some (.hostedUpdate 5) ∧
    (5 : ℚ) ≠ envFrame2.startT - envFrame1.startT := by
  constructor
  · simp [window_event, appConfigured, envFrame1, envFrame2, is_input_event]
  · simp [envFrame1, envFrame2]

/-- Claim C2 (amended): the `dt` passed to hosted `update` is the value of
`elapsed` stored by the previous redraw handling, and each redraw
handling stores into `elapsed` the wall-clock duration of its own work
(from handler entry to after the render result is handled) — so `dt`
depends exactly on how long the previous frame's update and render work
took, not on the spacing of redraw requests. -/
theorem dt_is_previous_frame_duration (app : AppModel) (st : State)
    (env : FrameEnv) (h : app.state = some st) :
    (window_event app .redrawRequested env).2.head? =
      some (.hostedUpdate app.elapsed) ∧
    (window_event app .redrawRequested env).1.elapsed =
      env.finishT - env.startT := by
  cases hc : st.is_surface_configured <;> cases hacq : env.acquire <;>
    simp [window_event, h, hc, hacq, is_input_event]

/-- Claim C2, witness: `dt_is_previous_frame_duration` instantiated on the
configured 800x600 runtime state and the first frame environment. -/
theorem dt_is_previous_frame_duration_witness :
    (window_event appConfigured .redrawRequested envFrame1).2.head? =
      some (.hostedUpdate 0) ∧
    (window_event appConfigured .redrawRequested envFrame1).1.elapsed = 5 - 0 :=
  dt_is_previous_frame_duration appConfigured
    { width := 800, height := 600, is_surface_configured := true }
    envFrame1 rfl

/-! ### Pump lemmas shared by the gamepad claims -/

/-- The held-button set recorded for a device (empty when no entry). -/
def heldSet (s : InputInner) (id : ℕ) : Finset ℕ :=
  ((s.gamepads id).getD GamepadState.default).buttons_down

/-- One fold step of the held state of `(id, button)` over one event. -/
def buttonStep (id button : ℕ) (held : Bool) (ev : GEvent) : Bool :=
  if isPressEventFor id button ev then true
  else if isReleaseEventFor id button ev then false
  else held

theorem is_button_pressed_eq_mem_heldSet (s : InputInner) (id button : ℕ) :
    is_button_pressed s id button = decide (button ∈ heldSet s id) := by
  unfold is_button_pressed heldSet
  cases s.gamepads id <;> simp [GamepadState.default]

theorem processGilrsEvent_heldSet (s : InputInner) (ev : GEvent) (id : ℕ) :
    heldSet (processGilrsEvent s ev) id =
      if ev.id = id then
        match ev.event with
        | .ButtonPressed b => insert b (heldSet s id)
        | .ButtonReleased b => (heldSet s id).erase b
        | _ => heldSet s id
      else heldSet s id := by
  obtain ⟨eid, t, info⟩ := ev
  by_cases hid : eid = id
  · subst hid
    cases t <;> simp [processGilrsEvent, heldSet, refresh_gamepad_info]
  · have hid2 : ¬ id = eid := fun h => hid h.symm
    cases t <;> simp [processGilrsEvent, heldSet, refresh_gamepad_info, hid, hid2]

theorem processGilrsEvent_held_bool (s : InputInner) (ev : GEvent)
    (id button : ℕ) :
    is_button_pressed (processGilrsEvent s ev) id button =
      buttonStep id button (is_button_pressed s id button) ev := by
  rw [is_button_pressed_eq_mem_heldSet, is_button_pressed_eq_mem_heldSet,
    processGilrsEvent_heldSet]
  obtain ⟨eid, t, info⟩ := ev
  by_cases hid : eid = id
  · subst hid
    cases t with
    | ButtonPressed b =>
      by_cases hb : b = button
      · subst hb
        simp [buttonStep, isPressEventFor, isReleaseEventFor, Finset.mem_insert]
      · have hb2 : ¬ button = b := fun h => hb h.symm
        simp [buttonStep, isPressEventFor, isReleaseEventFor, hb, hb2,
          Finset.mem_insert]
    | ButtonReleased b =>
      by_cases hb : b = button
      · subst hb
        simp [buttonStep, isPressEventFor, isReleaseEventFor, Finset.mem_erase]
      · have hb2 : ¬ button = b := fun h => hb h.symm
        simp [buttonStep, isPressEventFor, isReleaseEventFor, hb, hb2,
          Finset.mem_erase]
    | Connected => simp [buttonStep, isPressEventFor, isReleaseEventFor]
    | Disconnected => simp [buttonStep, isPressEventFor, isReleaseEventFor]
    | ButtonChanged b v => simp [buttonStep, isPressEventFor, isReleaseEventFor]
    | AxisChanged a v => simp [buttonStep, isPressEventFor, isReleaseEventFor]
    | other => simp [buttonStep, isPressEventFor, isReleaseEventFor]
  · have hid2 : ¬ id = eid := fun h => hid h.symm
    cases t <;>
      simp [buttonStep, isPressEventFor, isReleaseEventFor, hid, hid2]

theorem foldl_is_button_pressed (es : List GEvent) :
    ∀ (s : InputInner) (id button : ℕ),
      is_button_pressed (es.foldl processGilrsEvent s) id button =
        es.foldl (buttonStep id button) (is_button_pressed s id button) := by
  induction es with
  | nil => intro s id button; rfl
  | cons e es ih =>
      intro s id button
      rw [List.foldl_cons, List.foldl_cons, ih, processGilrsEvent_held_bool]

theorem foldl_buttonStep_eq_lastButtonEdge (id button : ℕ) (es : List GEvent) :
    ∀ h : Bool, es.foldl (buttonStep id button) h =
      (lastButtonEdge id button es).getD h := by
  induction es with
  | nil => intro h; rfl
  | cons e es ih =>
      intro h
      rw [List.foldl_cons, ih]
      cases hle : lastButtonEdge id button es with
      | some x => simp [lastButtonEdge, hle]
      | none =>
          simp only [lastButtonEdge, hle, buttonStep]
          by_cases hp : isPressEventFor id button e <;>
            by_cases hr : isReleaseEventFor id button e <;>
            simp [hp, hr]

/-! ### Claim C4 — held-button set vs. press/release history -/

/-- Connection info reported by the backend in the concrete scenarios. -/
def padInfo : GamepadInfo := { name := "pad", is_connected := true }

/-- Two presses of button 7 on device 1 followed by one release. -/
def doublePress : List GEvent :=
  [ { id := 1, event := .ButtonPressed 7, backend_info := padInfo },
    { id := 1, event := .ButtonPressed 7, backend_info := padInfo },
    { id := 1, event := .ButtonReleased 7, backend_info := padInfo } ]

/-- Claim C4, counterexample: draining two presses and one release of the
same button, the net count of presses minus releases is 1 — odd parity and
positive, so the claimed parity rule says the button is held — yet the
held-button set does not contain the button (a repeated press inserts into
a set only once, and the release removes it). -/
theorem parity_counterexample :
    pressCount doublePress 1 7 = 2 ∧
    releaseCount doublePress 1 7 = 1 ∧
    ((pressCount doublePress 1 7 : ℤ) - releaseCount doublePress 1 7) % 2 = 1 ∧
    is_button_pressed (update_gamepads inputFresh doublePress) 1 7 = false := by
  decide

/-- Claim C4 (amended): after `update_gamepads` drains a sequence of
events, a button is in a device's held set exactly when the last press or
release of that button on that device in the sequence is a press, and
membership is unchanged when the sequence has no press or release of it
(for strictly alternating press/release sequences this coincides with the
parity rule; in general it does not). -/
theorem held_tracks_last_edge (s : InputInner) (es : List GEvent)
    (id button : ℕ) :
    is_button_pressed (update_gamepads s es) id button =
      (lastButtonEdge id button es).getD (is_button_pressed s id button) := by
  simp only [update_gamepads, pump_gilrs_events]
  rw [foldl_is_button_pressed, foldl_buttonStep_eq_lastButtonEdge]
  rfl

/-! ### Claim C5 — just-pressed edges last exactly one pump -/

theorem processGilrsEvent_just_pressed (s : InputInner) (ev : GEvent) :
    (processGilrsEvent s ev).gamepad_frame.just_pressed =
      match ev.event with
      | .ButtonPressed b => insert (ev.id, b) s.gamepad_frame.just_pressed
      | _ => s.gamepad_frame.just_pressed := by
  obtain ⟨eid, t, info⟩ := ev
  cases t <;> simp [processGilrsEvent, refresh_gamepad_info]

theorem foldl_just_pressed (es : List GEvent) :
    ∀ (s : InputInner) (id button : ℕ),
      ((id, button) ∈ (es.foldl processGilrsEvent s).gamepad_frame.just_pressed)
        ↔ ((id, button) ∈ s.gamepad_frame.just_pressed ∨
            es.any (isPressEventFor id button) = true) := by
  induction es with
  | nil => intro s id button; simp
  | cons e es ih =>
      intro s id button
      rw [List.foldl_cons, ih, processGilrsEvent_just_pressed]
      obtain ⟨eid, t, info⟩ := e
      cases t with
      | ButtonPressed b =>
        simp only [List.any_cons, isPressEventFor, Finset.mem_insert,
          Prod.mk.injEq, Bool.or_eq_true, Bool.and_eq_true, beq_iff_eq]
        constructor
        · rintro ((⟨h1, h2⟩ | hmem) | hany)
          · exact Or.inr (Or.inl ⟨h1.symm, h2.symm⟩)
          · exact Or.inl hmem
          · exact Or.inr (Or.inr hany)
        · rintro (hmem | ⟨h1, h2⟩ | hany)
          · exact Or.inl (Or.inr hmem)
          · exact Or.inl (Or.inl ⟨h1.symm, h2.symm⟩)
          · exact Or.inr hany
      | Connected => simp [isPressEventFor, List.any_cons]
      | Disconnected => simp [isPressEventFor, List.any_cons]
      | ButtonReleased b => simp [isPressEventFor, List.any_cons]
      | ButtonChanged b v => simp [isPressEventFor, List.any_cons]
      | AxisChanged a v => simp [isPressEventFor, List.any_cons]
      | other => simp [isPressEventFor, List.any_cons]

/-- Claim C5: after an `update_gamepads` call drains the events `es`,
`was_button_just_pressed` holds exactly when `es` carries a press of that
button on that device; hence it is true in the call that drains the press
and false after every later call whose drained events hold no new press. -/
theorem just_pressed_iff_press_drained (s : InputInner) (es : List GEvent)
    (id button : ℕ) :
    was_button_just_pressed (update_gamepads s es) id button =
      es.any (isPressEventFor id button) := by
  have h := foldl_just_pressed es
    { s with gamepad_frame := { just_pressed := ∅, just_released := ∅ } }
    id button
  simp only [Finset.not_mem_empty, false_or] at h
  simp only [update_gamepads, pump_gilrs_events, was_button_just_pressed]
  rw [Bool.eq_iff_iff, decide_eq_true_eq]
  exact h

/-! ### Claim C7 — disconnect preserves the device entry -/

/-- A drained `Disconnected` event for device `id`; once it is drained the
backend reports the gamepad as not connected, so `gilrs.gamepad(id)`
yields `is_connected = false`. -/
def disconnectEvent (id : ℕ) (nm : String) : GEvent :=
  { id := id, event := .Disconnected,
    backend_info := { name := nm, is_connected := false } }

/-- Claim C7: processing a disconnect event flips the device's
`is_connected` to false and never removes its entry — the held-button set,
analog button values and axis values are untouched and every query on them
answers as before. -/
theorem disconnect_preserves_device_state (s : InputInner) (id : ℕ)
    (nm : String) :
    (processGilrsEvent s (disconnectEvent id nm)).gamepads =
      (fun i => if i = id then
          some { ((s.gamepads id).getD GamepadState.default) with
                   info := { name := nm, is_connected := false } }
        else s.gamepads i) ∧
    ((processGilrsEvent s (disconnectEvent id nm)).gamepads id).isSome = true ∧
    (((processGilrsEvent s (disconnectEvent id nm)).gamepads id).getD
        GamepadState.default).info.is_connected = false ∧
    (∀ b, is_button_pressed (processGilrsEvent s (disconnectEvent id nm)) id b =
      is_button_pressed s id b) ∧
    (∀ b, button_value (processGilrsEvent s (disconnectEvent id nm)) id b =
      button_value s id b) ∧
    (∀ a, axis_value (processGilrsEvent s (disconnectEvent id nm)) id a =
      axis_value s id a) := by
  refine ⟨rfl, ?_, ?_, ?_, ?_, ?_⟩
  · simp [processGilrsEvent, disconnectEvent, refresh_gamepad_info]
  · simp [processGilrsEvent, disconnectEvent, refresh_gamepad_info]
  · intro b
    simp only [processGilrsEvent, disconnectEvent, refresh_gamepad_info,
      is_button_pressed]
    cases hg : s.gamepads id <;> simp [hg, GamepadState.default]
  · intro b
    simp only [processGilrsEvent, disconnectEvent, refresh_gamepad_info,
      button_value]
    cases hg : s.gamepads id <;> simp [hg, GamepadState.default]
  · intro a
    simp only [processGilrsEvent, disconnectEvent, refresh_gamepad_info,
      axis_value]
    cases hg : s.gamepads id <;> simp [hg, GamepadState.default]

/-! ### Claim C8 — axis normalization -/

/-- A drained `AxisChanged` event. -/
def axisChangedEvent (id axis : ℕ) (v : F32) (info : GamepadInfo) : GEvent :=
  { id := id, event := .AxisChanged axis v, backend_info := info }

/-- Claim C8: `normalize_axis_value` maps every non-finite input to 0.0,
clamps finite inputs above 1 to 1 and below -1 to -1, is the identity on
finite inputs already in [-1, 1], and every axis value stored while
draining an `AxisChanged` event has passed through it. -/
theorem normalize_axis_value_spec :
    (∀ v : F32, (v = .nan ∨ v = .posInf ∨ v = .negInf) →
      normalize_axis_value v = .finite 0) ∧
    (∀ q : ℚ, 1 < q → normalize_axis_value (.finite q) = .finite 1) ∧
    (∀ q : ℚ, q < -1 → normalize_axis_value (.finite q) = .finite (-1)) ∧
    (∀ q : ℚ, -1 ≤ q → q ≤ 1 → normalize_axis_value (.finite q) = .finite q) ∧
    (∀ (s : InputInner) (id axis : ℕ) (v : F32) (info : GamepadInfo),
      (((processGilrsEvent s (axisChangedEvent id axis v info)).gamepads id).getD
          GamepadState.default).axes axis = some (normalize_axis_value v)) := by
  refine ⟨?_, ?_, ?_, ?_, ?_⟩
  · rintro v (rfl | rfl | rfl) <;> rfl
  · intro q hq
    have h1 : ¬ q < -1 := by linarith
    simp [normalize_axis_value, h1, hq]
  · intro q hq
    simp [normalize_axis_value, hq]
  · intro q h1 h2
    have ha : ¬ q < -1 := not_lt.mpr h1
    have hb : ¬ q > 1 := not_lt.mpr h2
    simp [normalize_axis_value, ha, hb]
  · intro s id axis v info
    simp [processGilrsEvent, axisChangedEvent, refresh_gamepad_info]

/-- Claim C8, witness: `normalize_axis_value_spec` instantiated on the
spec's test vector. -/
theorem normalize_axis_value_spec_witness :
    normalize_axis_value .nan = .finite 0 ∧
    normalize_axis_value .posInf = .finite 0 ∧
    normalize_axis_value (.finite (3/2)) = .finite 1 ∧
    normalize_axis_value (.finite (-2)) = .finite (-1) ∧
    normalize_axis_value (.finite (3/10)) = .finite (3/10) :=
  ⟨normalize_axis_value_spec.1 .nan (Or.inl rfl),
   normalize_axis_value_spec.1 .posInf (Or.inr (Or.inl rfl)),
   normalize_axis_value_spec.2.1 (3/2) (by norm_num),
   normalize_axis_value_spec.2.2.1 (-2) (by norm_num),
   normalize_axis_value_spec.2.2.2.1 (3/10) (by norm_num) (by norm_num)⟩

/-! ### Claim C10 — analog button-changed events -/

/-- A drained `ButtonChanged` event. -/
def buttonChangedEvent (id button : ℕ) (v : F32) (info : GamepadInfo) :
    GEvent :=
  { id := id, event := .ButtonChanged button v, backend_info := info }

/-- Claim C10: draining a `ButtonChanged` event stores the value clamped
with `clamp(0.0, 1.0)` (finite results always land in [0, 1]) into the
analog button-value mapping of that device only, and never modifies any
held-button set, any axis mapping, or the just-pressed/just-released edge
sets — whatever the reported value, including 1.0 and 0.0. -/
theorem button_changed_updates_only_value (s : InputInner) (id button : ℕ)
    (v : F32) (info : GamepadInfo) :
    (processGilrsEvent s (buttonChangedEvent id button v info)).gamepad_frame
      = s.gamepad_frame ∧
    (∀ i, (((processGilrsEvent s (buttonChangedEvent id button v info)).gamepads i).getD
        GamepadState.default).buttons_down
      = ((s.gamepads i).getD GamepadState.default).buttons_down) ∧
    (∀ i, (((processGilrsEvent s (buttonChangedEvent id button v info)).gamepads i).getD
        GamepadState.default).axes
      = ((s.gamepads i).getD GamepadState.default).axes) ∧
    (∀ i, i = id ∨
      (processGilrsEvent s (buttonChangedEvent id button v info)).gamepads i
        = s.gamepads i) ∧
    (((processGilrsEvent s (buttonChangedEvent id button v info)).gamepads id).getD
        GamepadState.default).button_values
      = (fun b => if b = button then some (v.clamp 0 1)
          else ((s.gamepads id).getD GamepadState.default).button_values b) ∧
    (∀ q : ℚ, ∃ r : ℚ,
      F32.clamp (.finite q) 0 1 = .finite r ∧ 0 ≤ r ∧ r ≤ 1) := by
  refine ⟨rfl, ?_, ?_, ?_, ?_, ?_⟩
  · intro i
    by_cases hi : i = id
    · subst hi
      simp [processGilrsEvent, buttonChangedEvent, refresh_gamepad_info]
    · simp [processGilrsEvent, buttonChangedEvent, refresh_gamepad_info, hi]
  · intro i
    by_cases hi : i = id
    · subst hi
      simp [processGilrsEvent, buttonChangedEvent, refresh_gamepad_info]
    · simp [processGilrsEvent, buttonChangedEvent, refresh_gamepad_info, hi]
  · intro i
    by_cases hi : i = id
    · exact Or.inl hi
    · exact Or.inr
        (by simp [processGilrsEvent, buttonChangedEvent, refresh_gamepad_info, hi])
  · funext b
    by_cases hb : b = button <;>
      simp [processGilrsEvent, buttonChangedEvent, refresh_gamepad_info, hb]
  · intro q
    refine ⟨if q < 0 then 0 else if q > 1 then 1 else q, rfl, ?_, ?_⟩ <;>
      split_ifs <;> linarith

end Lyrebird
